import Mathlib

/-!
Verification development for the x-whatsapp-bridge repository.

JavaScript strings are modelled as lists of characters (`JsStr`); optional /
nullable values as `Option`; throwing operations as `Except`.  Every
definition is a direct translation of a function in the repository source;
the file and line of origin are recorded in each doc comment.
-/

namespace XWaBridge

/-- Model of a JavaScript string: a list of characters. -/
abbrev JsStr := List Char

/-! ## Identifier codec (src/packages/nextjs/src/lib/cid.ts, src/unnamed/part_000) -/

/-- BASE62_ALPHABET from src/packages/nextjs/src/lib/cid.ts line 5:
the 62-symbol alphabet 0-9, A-Z, a-z. -/
def BASE62_ALPHABET : JsStr :=
  "0123456789ABCDEFGHIJKLMNOPQRSTUVWXYZabcdefghijklmnopqrstuvwxyz".data

/-- randomBase62 from src/packages/nextjs/src/lib/cid.ts lines 10-18:
draws `len` random bytes (modelled by the byte stream `bytes`) and maps each
through BASE62_ALPHABET at index byte % 62. -/
def randomBase62 (bytes : Nat → Nat) (len : Nat) : JsStr :=
  (List.range len).map (fun i => BASE62_ALPHABET.getD (bytes i % 62) (Char.ofNat 48))

/-- generateCid from src/packages/nextjs/src/lib/cid.ts lines 24-26:
a 10-character base62 string. -/
def generateCid (bytes : Nat → Nat) : JsStr :=
  randomBase62 bytes 10

/-- Bool test for membership of the character class [0-9A-Za-z]
of the regex in isValidCid: a digit, an upper-case ASCII letter or a
lower-case ASCII letter. -/
def base62Char (c : Char) : Bool :=
  (decide ((Char.ofNat 48) ≤ c) && decide (c ≤ (Char.ofNat 57))) ||
  (decide ((Char.ofNat 65) ≤ c) && decide (c ≤ (Char.ofNat 90))) ||
  (decide ((Char.ofNat 97) ≤ c) && decide (c ≤ (Char.ofNat 122)))

/-- isValidCid from src/packages/nextjs/src/lib/cid.ts lines 31-36
(identical in src/unnamed/part_000 lines 27-32).  The input is an
Option to model a null/absent argument; `!cid` is true in JS for null,
undefined and the empty string.  The regex test of
/^[0-9A-Za-z]\x7b10\x7d$/ is: length 10 and all characters in the class. -/
def isValidCid (cid : Option JsStr) : Bool :=
  match cid with
  | none => false
  | some s =>
    if s.isEmpty || !(s.length == 10) then false
    else s.length == 10 && s.all base62Char

/-- generateCidWithPrefix from src/unnamed/part_000 lines 38-41:
suffix of length 10 - min(prefix.length, 3) drawn from the alphabet
(modelled by randomBase62, as customAlphabet draws uniformly from
BASE62_ALPHABET), then (prefix.slice(0,3) + suffix).slice(0,10). -/
def generateCidWithPrefix (bytes : Nat → Nat) (pfx : JsStr) : JsStr :=
  ((pfx.take 3) ++ randomBase62 bytes (10 - min pfx.length 3)).take 10

/-! ## Message composer (src/packages/shared/src/whatsapp.ts) -/

/-- MAX_MESSAGE_LENGTH from src/packages/shared/src/whatsapp.ts line 7. -/
def MAX_MESSAGE_LENGTH : Nat := 2000

/-- isValidPhoneNumber from src/packages/shared/src/whatsapp.ts lines 17-19:
the regex /^[1-9]\d\x7b6,14\x7d$/ — a first digit 1-9 followed by 6 to 14
digits. -/
def isValidPhoneNumber (phone : JsStr) : Bool :=
  match phone with
  | [] => false
  | c :: rest =>
    decide ((Char.ofNat 49) ≤ c) && decide (c ≤ (Char.ofNat 57)) &&
    rest.all Char.isDigit && decide (6 ≤ rest.length) && decide (rest.length ≤ 14)

/-- The ECMAScript WhiteSpace and LineTerminator character set used by
String.prototype.trim. -/
def jsWhitespace (c : Char) : Bool :=
  ([0x9, 0xA, 0xB, 0xC, 0xD, 0x20, 0xA0, 0x1680, 0x2028, 0x2029,
    0x202F, 0x205F, 0x3000, 0xFEFF] : List Nat).contains c.toNat ||
  (decide (0x2000 ≤ c.toNat) && decide (c.toNat ≤ 0x200A))

/-- Model of String.prototype.trim restricted to the left end. -/
def trimLeftWS (s : JsStr) : JsStr :=
  s.dropWhile jsWhitespace

/-- Model of String.prototype.trim restricted to the right end. -/
def trimRightWS (s : JsStr) : JsStr :=
  ((s.reverse).dropWhile jsWhitespace).reverse

/-- Model of String.prototype.trim: strip leading and trailing whitespace. -/
def jsTrim (s : JsStr) : JsStr :=
  trimRightWS (trimLeftWS s)

/-- Model of .replace(/\0/g, ""): remove every null byte. -/
def stripNulls (s : JsStr) : JsStr :=
  s.filter (fun c => !(c == Char.ofNat 0))

/-- sanitizeMessageText from src/packages/shared/src/whatsapp.ts lines 27-32:
trim, then strip null bytes, then .slice(0, MAX_MESSAGE_LENGTH). -/
def sanitizeMessageText (text : JsStr) : JsStr :=
  (stripNulls (jsTrim text)).take MAX_MESSAGE_LENGTH

/-- The characters encodeURIComponent leaves unescaped:
ASCII alphanumerics and - _ . ! ~ * apostrophe ( ). -/
def uriUnescaped (c : Char) : Bool :=
  c.isAlphanum ||
  (['-', '_', '.', '!', '~', '*', Char.ofNat 39, '(', ')'] : JsStr).contains c

/-- The UTF-8 byte sequence of a single code point. -/
def utf8Bytes (c : Char) : List Nat :=
  let n := c.toNat
  if n < 0x80 then [n]
  else if n < 0x800 then [0xC0 + n / 0x40, 0x80 + n % 0x40]
  else if n < 0x10000 then
    [0xE0 + n / 0x1000, 0x80 + n / 0x40 % 0x40, 0x80 + n % 0x40]
  else
    [0xF0 + n / 0x40000, 0x80 + n / 0x1000 % 0x40, 0x80 + n / 0x40 % 0x40,
     0x80 + n % 0x40]

/-- Upper-case hexadecimal digit. -/
def hexUpper (n : Nat) : Char :=
  "0123456789ABCDEF".data.getD n (Char.ofNat 48)

/-- Percent-encoding of one byte: a percent sign and two upper-case hex digits. -/
def pctByte (b : Nat) : JsStr :=
  [Char.ofNat 37, hexUpper (b / 16), hexUpper (b % 16)]

/-- Model of JavaScript encodeURIComponent: unescaped characters kept,
every other character replaced by the percent-encoding of its UTF-8 bytes. -/
def encodeURIComponent (s : JsStr) : JsStr :=
  (s.map (fun c =>
    if uriUnescaped c then [c] else ((utf8Bytes c).map pctByte).flatten)).flatten

/-- buildMessageWithCid from src/packages/shared/src/whatsapp.ts lines 38-41:
sanitize the base text and append the literal suffix. -/
def buildMessageWithCid (baseText cid : JsStr) : JsStr :=
  sanitizeMessageText baseText ++ " (cid:".data ++ cid ++ ")".data

/-- generateWaHttpsUrl from src/packages/shared/src/whatsapp.ts lines 47-56:
throws on an invalid phone, otherwise sanitizes, percent-encodes and builds
the wa.me URL. -/
def generateWaHttpsUrl (phone text : JsStr) : Except JsStr JsStr :=
  if isValidPhoneNumber phone then
    Except.ok ("https://wa.me/".data ++ phone ++ "?text=".data ++
      encodeURIComponent (sanitizeMessageText text))
  else
    Except.error ("Invalid phone number format: ".data ++ phone)

/-- generateWaDeepLinkUrl from src/packages/shared/src/whatsapp.ts lines 62-71. -/
def generateWaDeepLinkUrl (phone text : JsStr) : Except JsStr JsStr :=
  if isValidPhoneNumber phone then
    Except.ok ("whatsapp://send?phone=".data ++ phone ++ "&text=".data ++
      encodeURIComponent (sanitizeMessageText text))
  else
    Except.error ("Invalid phone number format: ".data ++ phone)

/-- Result triple of generateWhatsAppUrls. -/
structure WaUrls where
  messageText : JsStr
  httpsUrl : JsStr
  deepLinkUrl : JsStr
deriving DecidableEq, Repr

/-- generateWhatsAppUrls from src/packages/shared/src/whatsapp.ts lines 76-88:
builds the message once and derives both URL forms from it. -/
def generateWhatsAppUrls (phone baseText cid : JsStr) : Except JsStr WaUrls := do
  let messageText := buildMessageWithCid baseText cid
  let httpsUrl ← generateWaHttpsUrl phone messageText
  let deepLinkUrl ← generateWaDeepLinkUrl phone messageText
  pure { messageText := messageText, httpsUrl := httpsUrl, deepLinkUrl := deepLinkUrl }

/-! ## Persistence gateway (src/packages/shared/src/database.ts) -/

/-- ClickRecord from src/packages/shared/src/types.ts lines 34-46, without
the store-assigned id.  Optional nullable fields are Options; `none` stands
for null, undefined or an absent field. -/
structure ClickRecord where
  cid : JsStr
  slug : JsStr
  created_at : JsStr
  twclid : Option JsStr
  utm_source : Option JsStr
  utm_medium : Option JsStr
  utm_campaign : Option JsStr
  utm_content : Option JsStr
  user_agent : Option JsStr
  referer : Option JsStr
  ip_hash : Option JsStr
deriving DecidableEq, Repr

/-- JavaScript `v || null` applied to a string-or-null-or-undefined value:
null, undefined and the empty string collapse to null. -/
def jsOrNull (v : Option JsStr) : Option JsStr :=
  match v with
  | none => none
  | some s => if s.isEmpty then none else some s

/-- The per-field `click.x || null` normalization applied by
SqliteDatabase.insertClick (src/packages/shared/src/database.ts lines 91-103)
and PostgresDatabase.insertClick (lines 150-166) to every optional column
before binding it. -/
def dbNormalizeRecord (r : ClickRecord) : ClickRecord :=
  { r with
    twclid := jsOrNull r.twclid
    utm_source := jsOrNull r.utm_source
    utm_medium := jsOrNull r.utm_medium
    utm_campaign := jsOrNull r.utm_campaign
    utm_content := jsOrNull r.utm_content
    user_agent := jsOrNull r.user_agent
    referer := jsOrNull r.referer
    ip_hash := jsOrNull r.ip_hash }

/-- A stored row: the store-assigned integer id together with the fields. -/
structure StoredClick where
  id : Nat
  fields : ClickRecord
deriving DecidableEq, Repr

/-- In-memory backend state (src/packages/shared/src/database.ts lines
185-205): a JS Map from cid to record plus the synthetic id counter,
which starts at 1. -/
structure InMemoryDb where
  clicks : List (JsStr × StoredClick)
  idCounter : Nat
deriving DecidableEq, Repr

/-- JS Map.prototype.set: replace the entry in place if the key is present,
otherwise append. -/
def mapSet (m : List (JsStr × StoredClick)) (k : JsStr) (v : StoredClick) :
    List (JsStr × StoredClick) :=
  match m with
  | [] => [(k, v)]
  | (k0, v0) :: rest =>
    if k0 = k then (k, v) :: rest else (k0, v0) :: mapSet rest k v

/-- JS Map.prototype.get followed by `|| null`. -/
def mapGet (m : List (JsStr × StoredClick)) (k : JsStr) : Option StoredClick :=
  match m with
  | [] => none
  | (k0, v0) :: rest => if k0 = k then some v0 else mapGet rest k

/-- InMemoryDatabase.insertClick (database.ts lines 193-196): spread the
record, assign the next id, Map.set under the cid.  It never fails. -/
def inMemoryInsertClick (db : InMemoryDb) (click : ClickRecord) : InMemoryDb :=
  { clicks := mapSet db.clicks click.cid { id := db.idCounter, fields := click }
    idCounter := db.idCounter + 1 }

/-- InMemoryDatabase.getClickByCid (database.ts lines 198-200). -/
def inMemoryGetClickByCid (db : InMemoryDb) (cid : JsStr) : Option StoredClick :=
  mapGet db.clicks cid

/-- The clicks table of the SQL backends: rows in insertion order plus the
next autoincrement id.  Column widths of the Postgres schema are not
modelled; the UNIQUE NOT NULL constraint on cid (database.ts lines 22 and
39) is. -/
structure SqlTable where
  rows : List StoredClick
  nextId : Nat
deriving DecidableEq, Repr

/-- Errors raised by the SQL-backed stores: the explicit
"Database not initialized" throw, and the engine's uniqueness violation
for the UNIQUE constraint on cid. -/
inductive DbError where
  | uninit : DbError
  | uniqueViolation : JsStr → DbError
deriving DecidableEq, Repr

/-- SQLite backend state: `none` when init() has not run (this.db = null). -/
abbrev SqliteDb := Option SqlTable

/-- SqliteDatabase.init (database.ts lines 66-81): CREATE TABLE IF NOT
EXISTS — an existing table is kept, otherwise an empty one is made. -/
def sqliteInit (d : SqliteDb) : SqliteDb :=
  some (d.getD { rows := [], nextId := 1 })

/-- SqliteDatabase.insertClick (database.ts lines 83-104): throws if not
initialized; the INSERT binds each optional column through `|| null` and
the UNIQUE constraint on cid rejects a duplicate. -/
def sqliteInsertClick : SqliteDb → ClickRecord → Except DbError SqliteDb
  | none, _ => Except.error DbError.uninit
  | some t, click =>
    if (t.rows.find? (fun row => row.fields.cid == click.cid)).isSome then
      Except.error (DbError.uniqueViolation click.cid)
    else
      Except.ok (some { rows := t.rows ++ [{ id := t.nextId, fields := dbNormalizeRecord click }]
                        nextId := t.nextId + 1 })

/-- SqliteDatabase.getClickByCid (database.ts lines 106-112): throws if not
initialized; SELECT ... WHERE cid = ? returns the matching row or, via
`row || null`, an explicit null. -/
def sqliteGetClickByCid : SqliteDb → JsStr → Except DbError (Option StoredClick)
  | none, _ => Except.error DbError.uninit
  | some t, cid => Except.ok (t.rows.find? (fun row => row.fields.cid == cid))

/-- Postgres backend state: `none` when init() has not run (this.pool = null). -/
abbrev PostgresDb := Option SqlTable

/-- PostgresDatabase.init (database.ts lines 131-145). -/
def postgresInit (d : PostgresDb) : PostgresDb :=
  some (d.getD { rows := [], nextId := 1 })

/-- PostgresDatabase.insertClick (database.ts lines 147-167): same logical
behavior as the SQLite backend — `|| null` normalization of the optional
columns and a uniqueness violation on a duplicate cid. -/
def postgresInsertClick : PostgresDb → ClickRecord → Except DbError PostgresDb
  | none, _ => Except.error DbError.uninit
  | some t, click =>
    if (t.rows.find? (fun row => row.fields.cid == click.cid)).isSome then
      Except.error (DbError.uniqueViolation click.cid)
    else
      Except.ok (some { rows := t.rows ++ [{ id := t.nextId, fields := dbNormalizeRecord click }]
                        nextId := t.nextId + 1 })

/-- PostgresDatabase.getClickByCid (database.ts lines 169-174):
result.rows[0] || null. -/
def postgresGetClickByCid : PostgresDb → JsStr → Except DbError (Option StoredClick)
  | none, _ => Except.error DbError.uninit
  | some t, cid => Except.ok (t.rows.find? (fun row => row.fields.cid == cid))

/-- The optional request parameters accepted by createClickRecord
(database.ts lines 255-264). -/
structure ClickParams where
  twclid : Option JsStr
  utm_source : Option JsStr
  utm_medium : Option JsStr
  utm_campaign : Option JsStr
  utm_content : Option JsStr
  user_agent : Option JsStr
  referer : Option JsStr
  ip_hash : Option JsStr
deriving DecidableEq, Repr

/-- createClickRecord from src/packages/shared/src/database.ts lines 252-279
(identical in src/unnamed section of nextjs lib, lines 154-181).  The
timestamp new Date().toISOString() is passed in as `now`. -/
def createClickRecord (cid slug : JsStr) (params : ClickParams) (now : JsStr) :
    ClickRecord :=
  { cid := cid
    slug := slug
    created_at := now
    twclid := jsOrNull params.twclid
    utm_source := jsOrNull params.utm_source
    utm_medium := jsOrNull params.utm_medium
    utm_campaign := jsOrNull params.utm_campaign
    utm_content := jsOrNull params.utm_content
    user_agent := jsOrNull params.user_agent
    referer := jsOrNull params.referer
    ip_hash := jsOrNull params.ip_hash }

/-! ## Helper lemmas for trimming and sanitization -/

theorem dropWhile_idem (p : Char → Bool) (l : List Char) :
    (l.dropWhile p).dropWhile p = l.dropWhile p := by
  induction l with
  | nil => rfl
  | cons a t ih =>
    by_cases h : p a
    · rw [List.dropWhile_cons, if_pos h]; exact ih
    · rw [List.dropWhile_cons, if_neg h, List.dropWhile_cons, if_neg h]

theorem trimLeftWS_idem (s : JsStr) : trimLeftWS (trimLeftWS s) = trimLeftWS s :=
  dropWhile_idem jsWhitespace s

theorem trimRightWS_idem (s : JsStr) : trimRightWS (trimRightWS s) = trimRightWS s := by
  unfold trimRightWS
  rw [List.reverse_reverse, dropWhile_idem]

theorem trimLeftWS_trimRightWS (t : JsStr) (h : trimLeftWS t = t) :
    trimLeftWS (trimRightWS t) = trimRightWS t := by
  rcases hr : trimRightWS t with _ | ⟨c, u⟩
  · rfl
  · have hpre : trimRightWS t ++ (t.reverse.takeWhile jsWhitespace).reverse = t := by
      unfold trimRightWS
      have hsplit := List.takeWhile_append_dropWhile (p := jsWhitespace) (l := t.reverse)
      calc (t.reverse.dropWhile jsWhitespace).reverse ++ (t.reverse.takeWhile jsWhitespace).reverse
          = (t.reverse.takeWhile jsWhitespace ++ t.reverse.dropWhile jsWhitespace).reverse :=
            (List.reverse_append _ _).symm
        _ = t := by rw [hsplit, List.reverse_reverse]
    rw [hr] at hpre
    obtain ⟨w, hw⟩ : ∃ w, t = (c :: u) ++ w := ⟨_, hpre.symm⟩
    have hc : jsWhitespace c = false := by
      by_contra hcc
      have hct : jsWhitespace c = true := by simpa using hcc
      unfold trimLeftWS at h
      rw [hw, List.cons_append, List.dropWhile_cons, if_pos hct] at h
      have hlen := congrArg List.length h
      have hle := (List.dropWhile_sublist (l := u ++ w) (p := jsWhitespace)).length_le
      simp only [List.length_cons] at hlen
      omega
    unfold trimLeftWS
    rw [List.dropWhile_cons, if_neg (by simp [hc])]

theorem jsTrim_idem (s : JsStr) : jsTrim (jsTrim s) = jsTrim s := by
  unfold jsTrim
  rw [trimLeftWS_trimRightWS (trimLeftWS s) (trimLeftWS_idem s), trimRightWS_idem]

theorem jsTrim_subset (s : JsStr) : jsTrim s ⊆ s := by
  intro x hx
  unfold jsTrim trimRightWS trimLeftWS at hx
  rw [List.mem_reverse] at hx
  have h1 := (List.dropWhile_sublist (p := jsWhitespace)).subset hx
  rw [List.mem_reverse] at h1
  exact (List.dropWhile_sublist (p := jsWhitespace)).subset h1

theorem jsTrim_length_le (s : JsStr) : (jsTrim s).length ≤ s.length := by
  unfold jsTrim trimRightWS trimLeftWS
  have h1 := (List.dropWhile_sublist (l := (s.dropWhile jsWhitespace).reverse)
    (p := jsWhitespace)).length_le
  have h2 := (List.dropWhile_sublist (l := s) (p := jsWhitespace)).length_le
  simp only [List.length_reverse] at h1 ⊢
  omega

theorem stripNulls_of_not_mem {s : JsStr} (h : Char.ofNat 0 ∉ s) : stripNulls s = s := by
  unfold stripNulls
  refine List.filter_eq_self.mpr (fun a ha => ?_)
  simp only [Bool.not_eq_eq_eq_not, Bool.not_true, beq_eq_false_iff_ne, ne_eq]
  intro he
  exact h (he ▸ ha)

theorem sanitize_eq_trim {s : JsStr} (h0 : Char.ofNat 0 ∉ s) (hl : s.length ≤ 2000) :
    sanitizeMessageText s = jsTrim s := by
  unfold sanitizeMessageText
  rw [stripNulls_of_not_mem (fun hm => h0 (jsTrim_subset s hm))]
  exact List.take_of_length_le (le_trans (jsTrim_length_le s) hl)

/-- Claim C2 (corrected): sanitizeMessageText always truncates the result to
at most 2000 characters, and it is idempotent on every input that contains
no null byte and has at most 2000 characters.  On other inputs idempotence
can fail (see the counterexample): stripping a null byte or truncating can
re-expose trailing whitespace that a second application trims away. -/
theorem C2_sanitize_amended :
    (∀ s : JsStr, (sanitizeMessageText s).length ≤ 2000) ∧
    (∀ s : JsStr, Char.ofNat 0 ∉ s → s.length ≤ 2000 →
      sanitizeMessageText (sanitizeMessageText s) = sanitizeMessageText s) := by
  constructor
  · intro s
    unfold sanitizeMessageText MAX_MESSAGE_LENGTH
    rw [List.length_take]
    exact min_le_left _ _
  · intro s h0 hl
    have h0t : Char.ofNat 0 ∉ jsTrim s := fun hm => h0 (jsTrim_subset s hm)
    have hlt : (jsTrim s).length ≤ 2000 := le_trans (jsTrim_length_le s) hl
    rw [sanitize_eq_trim h0 hl, sanitize_eq_trim h0t hlt, jsTrim_idem]

/-- Witness for C2_sanitize_amended at the concrete input "  hi  ". -/
theorem C2_sanitize_witness :
    sanitizeMessageText (sanitizeMessageText ("  hi  ".data)) =
      sanitizeMessageText ("  hi  ".data) :=
  C2_sanitize_amended.2 ("  hi  ".data) (by decide) (by decide)

/-- Counterexample to claim C2 as stated: sanitizeMessageText is not
idempotent.  On "a \x00" (letter, space, null byte) one application trims
nothing, strips the null byte and leaves the trailing space; a second
application trims that space away. -/
theorem C2_sanitize_counterexample :
    sanitizeMessageText (sanitizeMessageText ("a \x00".data)) ≠
      sanitizeMessageText ("a \x00".data) := by decide

/-! ## Identifier codec claims -/

/-- The characterization of isValidCid on a present string: accepted exactly
when the length is 10 and every character is in the base62 class. -/
theorem isValidCid_some_iff (s : JsStr) :
    isValidCid (some s) = true ↔ s.length = 10 ∧ ∀ c ∈ s, base62Char c = true := by
  by_cases hl : s.length = 10
  · rcases s with _ | ⟨a, t⟩
    · simp at hl
    · simp [isValidCid, hl, List.all_eq_true]
  · rcases s with _ | ⟨a, t⟩
    · simp [isValidCid, hl]
    · simp [isValidCid, hl]

/-- Claim C5 (confirmed): isValidCid classifies without ever raising (it is
a total function); it is false on a null/absent argument; on a present
string it is true exactly when the string has length 10 and every character
is a digit, an upper-case ASCII letter or a lower-case ASCII letter; and a
single out-of-alphabet character (for example a hyphen or underscore)
forces it to false. -/
theorem C5_isValidCid_spec :
    isValidCid none = false ∧
    (∀ s : JsStr, isValidCid (some s) = true ↔
      s.length = 10 ∧ ∀ c ∈ s, base62Char c = true) ∧
    (∀ s : JsStr, ∀ c ∈ s, base62Char c = false → isValidCid (some s) = false) := by
  refine ⟨rfl, isValidCid_some_iff, ?_⟩
  intro s c hc hcf
  cases hval : isValidCid (some s)
  · rfl
  · have hall := ((isValidCid_some_iff s).mp hval).2 c hc
    rw [hcf] at hall
    exact absurd hall (by simp)

/-- Witness for C5_isValidCid_spec: a valid 10-character base62 identifier is
accepted, and an identifier containing a hyphen is rejected. -/
theorem C5_isValidCid_witness :
    isValidCid (some ("ABC123def9".data)) = true ∧
    isValidCid (some ("ABC-123_d9".data)) = false := by
  constructor
  · exact (C5_isValidCid_spec.2.1 ("ABC123def9".data)).mpr ⟨by decide, by decide⟩
  · exact C5_isValidCid_spec.2.2 ("ABC-123_d9".data) '-' (by decide) (by decide)

/-- Claim C6 (confirmed): for every draw of the underlying random byte
stream, generateCid returns a string of length exactly 10 all of whose
characters lie in the 62-symbol alphabet, so isValidCid accepts it. -/
theorem C6_generateCid_valid (bytes : Nat → Nat) :
    (generateCid bytes).length = 10 ∧
    (∀ c ∈ generateCid bytes, base62Char c = true) ∧
    isValidCid (some (generateCid bytes)) = true := by
  have halpha : ∀ j : Fin 62, base62Char (BASE62_ALPHABET.getD j.val (Char.ofNat 48)) = true := by
    decide
  have hlen : (generateCid bytes).length = 10 := by
    unfold generateCid randomBase62
    simp
  have hmem : ∀ c ∈ generateCid bytes, base62Char c = true := by
    intro c hcmem
    unfold generateCid randomBase62 at hcmem
    rcases List.mem_map.mp hcmem with ⟨i, _, hi⟩
    have hlt : bytes i % 62 < 62 := Nat.mod_lt _ (by omega)
    have := halpha ⟨bytes i % 62, hlt⟩
    rw [← hi]
    exact this
  exact ⟨hlen, hmem, (isValidCid_some_iff _).mpr ⟨hlen, hmem⟩⟩

/-- Claim C7 (confirmed): for every prefix string and every draw of the
random source, generateCidWithPrefix returns a string of length exactly 10
whose first min(3, length of the prefix) characters are exactly the first
min(3, length of the prefix) characters of the prefix; in particular with
prefix "TST" the result starts with "TST" and with prefix "TOOLONG" it
starts with "TOO". -/
theorem C7_cid_with_pfx_spec :
    (∀ (bytes : Nat → Nat) (pfx : JsStr),
      ( generateCidWithPrefix bytes pfx).length = 10 ∧
      ( generateCidWithPrefix bytes pfx).take (min 3 pfx.length) =
        pfx.take (min 3 pfx.length)) ∧
    (∀ bytes : Nat → Nat,
      ( generateCidWithPrefix bytes ("TST".data)).take 3 = "TST".data ∧
      ( generateCidWithPrefix bytes ("TOOLONG".data)).take 3 = "TOO".data) := by
  have hlen10 : ∀ (bytes : Nat → Nat) (pfx : JsStr),
      ((pfx.take 3) ++ randomBase62 bytes (10 - min pfx.length 3)).length = 10 := by
    intro bytes pfx
    rw [List.length_append, List.length_take]
    unfold randomBase62
    rw [List.length_map, List.length_range]
    have h1 : min 3 pfx.length ≤ 3 := min_le_left _ _
    have h2 : min pfx.length 3 = min 3 pfx.length := Nat.min_comm _ _
    omega
  have hkey : ∀ (bytes : Nat → Nat) (pfx : JsStr),
      ( generateCidWithPrefix bytes pfx).length = 10 ∧
      ( generateCidWithPrefix bytes pfx).take (min 3 pfx.length) =
        pfx.take (min 3 pfx.length) := by
    intro bytes pfx
    have hfull : generateCidWithPrefix bytes pfx =
        (pfx.take 3) ++ randomBase62 bytes (10 - min pfx.length 3) := by
      unfold generateCidWithPrefix
      exact List.take_of_length_le (le_of_eq (hlen10 bytes pfx))
    constructor
    · rw [hfull]; exact hlen10 bytes pfx
    · rw [hfull]
      have htl : (pfx.take 3).length = min 3 pfx.length := List.length_take _ _
      rw [List.take_left' htl]
      rcases le_or_lt pfx.length 3 with hle | hlt
      · rw [Nat.min_eq_right hle, List.take_of_length_le (Nat.le_refl _),
          List.take_of_length_le hle]
      · rw [Nat.min_eq_left (Nat.le_of_lt hlt)]
  refine ⟨hkey, fun bytes => ⟨?_, ?_⟩⟩
  · have h := (hkey bytes ("TST".data)).2
    simpa using h
  · have h := (hkey bytes ("TOOLONG".data)).2
    have h3 : min 3 ("TOOLONG".data).length = 3 := by decide
    rw [h3] at h
    rw [h]
    decide

/-! ## Message composer claims -/

/-- Claim C8 (confirmed): for every phone accepted by the validity predicate
generateWaHttpsUrl returns exactly "https://wa.me/" ++ phone ++ "?text=" ++
the query-component percent-encoding of the sanitized text, and for every
rejected phone it fails with the InvalidPhoneNumber error carrying the
offending value. -/
theorem C8_generateWaHttpsUrl_spec :
    (∀ phone text : JsStr, isValidPhoneNumber phone = true →
      generateWaHttpsUrl phone text =
        Except.ok ("https://wa.me/".data ++ phone ++ "?text=".data ++
          encodeURIComponent (sanitizeMessageText text))) ∧
    (∀ phone text : JsStr, isValidPhoneNumber phone = false →
      generateWaHttpsUrl phone text =
        Except.error ("Invalid phone number format: ".data ++ phone)) := by
  constructor
  · intro phone text h
    unfold generateWaHttpsUrl
    rw [if_pos h]
  · intro phone text h
    unfold generateWaHttpsUrl
    rw [if_neg (by simp [h])]

/-- Witness for C8_generateWaHttpsUrl_spec: the documented example
generateWaHttpsUrl("14155552671", "Hi Tal") and a rejected phone "0123". -/
theorem C8_generateWaHttpsUrl_witness :
    generateWaHttpsUrl ("14155552671".data) ("Hi Tal".data) =
      Except.ok ("https://wa.me/14155552671?text=Hi%20Tal".data) ∧
    generateWaHttpsUrl ("0123".data) ("Hi".data) =
      Except.error ("Invalid phone number format: 0123".data) := by
  constructor
  · exact (C8_generateWaHttpsUrl_spec.1 ("14155552671".data) ("Hi Tal".data)
      (by decide)).trans (congrArg Except.ok (by decide))
  · exact (C8_generateWaHttpsUrl_spec.2 ("0123".data) ("Hi".data)
      (by decide)).trans (congrArg Except.error (by decide))

/-- Counterexample to claim C9 as stated: the two URLs do not always embed
the percent-encoding of messageText itself.  With base text "" the message
is " (cid:ABC123DEF0)" (leading space), but both URL builders re-sanitize
the message, so the URLs embed the encoding of "(cid:ABC123DEF0)" without
the %20 for the leading space. -/
theorem C9_urls_counterexample :
    generateWhatsAppUrls ("14155552671".data) [] ("ABC123DEF0".data) =
      Except.ok
        { messageText := " (cid:ABC123DEF0)".data
          httpsUrl := "https://wa.me/14155552671?text=(cid%3AABC123DEF0)".data
          deepLinkUrl := "whatsapp://send?phone=14155552671&text=(cid%3AABC123DEF0)".data } ∧
    "https://wa.me/14155552671?text=(cid%3AABC123DEF0)".data ≠
      "https://wa.me/".data ++ "14155552671".data ++ "?text=".data ++
        encodeURIComponent (" (cid:ABC123DEF0)".data) := by
  exact ⟨rfl, by decide⟩

/-- Claim C9 (corrected): generateWhatsAppUrls returns a triple whose
messageText is the sanitized base text followed by the literal suffix
" (cid:" ++ cid ++ ")", and whose two URLs both embed the percent-encoding
of sanitizeMessageText applied to that messageText — the same encoded text
in both, so the text content of the two links is always identical.  (When
the sanitized base text is nonempty, null-free and short enough, that
re-sanitization is the identity and the URLs embed the encoding of
messageText itself, but not in general — see the counterexample.)  The
example buildMessageWithCid("Hi Tal", "ABC123DEF0") = "Hi Tal (cid:ABC123DEF0)"
holds. -/
theorem C9_urls_amended :
    buildMessageWithCid ("Hi Tal".data) ("ABC123DEF0".data) =
      "Hi Tal (cid:ABC123DEF0)".data ∧
    ∀ phone baseText cid : JsStr, isValidPhoneNumber phone = true →
      generateWhatsAppUrls phone baseText cid =
        Except.ok
          { messageText := buildMessageWithCid baseText cid
            httpsUrl := "https://wa.me/".data ++ phone ++ "?text=".data ++
              encodeURIComponent (sanitizeMessageText (buildMessageWithCid baseText cid))
            deepLinkUrl := "whatsapp://send?phone=".data ++ phone ++ "&text=".data ++
              encodeURIComponent (sanitizeMessageText (buildMessageWithCid baseText cid)) } := by
  constructor
  · decide
  · intro phone baseText cid h
    simp only [generateWhatsAppUrls, generateWaHttpsUrl, generateWaDeepLinkUrl, h]
    rfl

/-- Witness for C9_urls_amended at the concrete inputs phone "14155552671",
base text "Hi Tal" and cid "ABC123DEF0". -/
theorem C9_urls_witness :
    generateWhatsAppUrls ("14155552671".data) ("Hi Tal".data) ("ABC123DEF0".data) =
      Except.ok
        { messageText := "Hi Tal (cid:ABC123DEF0)".data
          httpsUrl := "https://wa.me/14155552671?text=Hi%20Tal%20(cid%3AABC123DEF0)".data
          deepLinkUrl := "whatsapp://send?phone=14155552671&text=Hi%20Tal%20(cid%3AABC123DEF0)".data } :=
  (C9_urls_amended.2 ("14155552671".data) ("Hi Tal".data) ("ABC123DEF0".data)
    (by decide)).trans (congrArg Except.ok (by decide))

/-! ## Persistence gateway claims -/

theorem mapGet_mapSet_self (m : List (JsStr × StoredClick)) (k : JsStr) (v : StoredClick) :
    mapGet (mapSet m k v) k = some v := by
  induction m with
  | nil => simp [mapSet, mapGet]
  | cons e rest ih =>
    rcases e with ⟨k0, v0⟩
    by_cases hk : k0 = k
    · simp [mapSet, mapGet, hk]
    · simp [mapSet, mapGet, hk, ih]

theorem mapGet_eq_none (m : List (JsStr × StoredClick)) (k : JsStr)
    (h : ∀ e ∈ m, e.1 ≠ k) : mapGet m k = none := by
  induction m with
  | nil => rfl
  | cons e rest ih =>
    rcases e with ⟨k0, v0⟩
    have hk : k0 ≠ k := h (k0, v0) (List.mem_cons_self _ _)
    simp [mapGet, hk]
    exact ih (fun e he => h e (List.mem_cons_of_mem _ he))

theorem find?_cid_eq_none (rows : List StoredClick) (cid : JsStr)
    (h : ∀ row ∈ rows, row.fields.cid ≠ cid) :
    rows.find? (fun row => row.fields.cid == cid) = none :=
  List.find?_eq_none.mpr (fun row hrow => by simpa using h row hrow)

theorem find?_cid_isSome (rows : List StoredClick) (cid : JsStr) (row : StoredClick)
    (hrow : row ∈ rows) (hcid : row.fields.cid = cid) :
    (rows.find? (fun row => row.fields.cid == cid)).isSome = true :=
  List.find?_isSome.mpr ⟨row, hrow, by simpa using hcid⟩

/-- Counterexample to claim C1 as stated: the in-memory backend accepts a
second insertClick with a duplicate cid — insertClick cannot fail at all on
this backend — and silently overwrites the previously stored record: after
inserting a record with slug "slug-a" and then a record with the same cid
and slug "slug-b", getClickByCid returns the second record. -/
theorem C1_inMemory_overwrite_counterexample :
    inMemoryGetClickByCid
      (inMemoryInsertClick
        (inMemoryInsertClick { clicks := [], idCounter := 1 }
          { cid := "ABC123DEF0".data, slug := "slug-a".data, created_at := "t0".data,
            twclid := none, utm_source := none, utm_medium := none,
            utm_campaign := none, utm_content := none, user_agent := none,
            referer := none, ip_hash := none })
        { cid := "ABC123DEF0".data, slug := "slug-b".data, created_at := "t0".data,
          twclid := none, utm_source := none, utm_medium := none,
          utm_campaign := none, utm_content := none, user_agent := none,
          referer := none, ip_hash := none })
      ("ABC123DEF0".data) =
      some { id := 2,
             fields := { cid := "ABC123DEF0".data, slug := "slug-b".data,
                         created_at := "t0".data, twclid := none, utm_source := none,
                         utm_medium := none, utm_campaign := none, utm_content := none,
                         user_agent := none, referer := none, ip_hash := none } } ∧
    ("slug-b".data : JsStr) ≠ "slug-a".data := by
  exact ⟨rfl, by decide⟩

/-- Claim C1 (corrected): the SQLite and Postgres backends reject a second
insertClick whose cid equals the cid of a stored row with a
uniqueness-violation error (the UNIQUE constraint on the cid column) and
produce no new store state, so the stored record is not overwritten; the
in-memory backend, however, never fails on insertClick and silently
replaces the stored record, so a subsequent getClickByCid returns the new
record. -/
theorem C1_duplicate_insert_amended :
    (∀ (t : SqlTable) (r : ClickRecord) (row : StoredClick), row ∈ t.rows →
      row.fields.cid = r.cid →
      sqliteInsertClick (some t) r = Except.error (DbError.uniqueViolation r.cid)) ∧
    (∀ (t : SqlTable) (r : ClickRecord) (row : StoredClick), row ∈ t.rows →
      row.fields.cid = r.cid →
      postgresInsertClick (some t) r = Except.error (DbError.uniqueViolation r.cid)) ∧
    (∀ (m : InMemoryDb) (r : ClickRecord),
      inMemoryGetClickByCid (inMemoryInsertClick m r) r.cid =
        some { id := m.idCounter, fields := r }) := by
  refine ⟨?_, ?_, ?_⟩
  · intro t r row hrow hcid
    simp only [sqliteInsertClick]
    rw [if_pos (find?_cid_isSome t.rows r.cid row hrow hcid)]
  · intro t r row hrow hcid
    simp only [postgresInsertClick]
    rw [if_pos (find?_cid_isSome t.rows r.cid row hrow hcid)]
  · intro m r
    unfold inMemoryGetClickByCid inMemoryInsertClick
    exact mapGet_mapSet_self m.clicks r.cid _

/-- Witness for C1_duplicate_insert_amended: a SQLite store holding one row
with cid "ABC123DEF0" rejects a second insert with the same cid. -/
theorem C1_duplicate_insert_witness :
    sqliteInsertClick
      (some { rows := [{ id := 1,
                         fields := { cid := "ABC123DEF0".data, slug := "slug-a".data,
                                     created_at := "t0".data, twclid := none,
                                     utm_source := none, utm_medium := none,
                                     utm_campaign := none, utm_content := none,
                                     user_agent := none, referer := none,
                                     ip_hash := none } }],
              nextId := 2 })
      { cid := "ABC123DEF0".data, slug := "slug-b".data, created_at := "t1".data,
        twclid := none, utm_source := none, utm_medium := none,
        utm_campaign := none, utm_content := none, user_agent := none,
        referer := none, ip_hash := none } =
      Except.error (DbError.uniqueViolation ("ABC123DEF0".data)) := by
  exact C1_duplicate_insert_amended.1 _ _ _ (List.mem_singleton_self _) rfl

/-- Claim C3 (confirmed): on every backend, getClickByCid for an identifier
with no stored record returns the explicit absence value rather than
raising: the initialized SQLite and Postgres backends answer ok-none, and
the in-memory backend answers none.  (The "Database not initialized" throw
of the SQL backends cannot fire once init has run, which the gateway
contract requires before first use.) -/
theorem C3_get_missing_returns_absence :
    (∀ (t : SqlTable) (cid : JsStr), (∀ row ∈ t.rows, row.fields.cid ≠ cid) →
      sqliteGetClickByCid (some t) cid = Except.ok none) ∧
    (∀ (t : SqlTable) (cid : JsStr), (∀ row ∈ t.rows, row.fields.cid ≠ cid) →
      postgresGetClickByCid (some t) cid = Except.ok none) ∧
    (∀ (m : InMemoryDb) (cid : JsStr), (∀ e ∈ m.clicks, e.1 ≠ cid) →
      inMemoryGetClickByCid m cid = none) := by
  refine ⟨?_, ?_, ?_⟩
  · intro t cid h
    simp only [sqliteGetClickByCid]
    rw [find?_cid_eq_none t.rows cid h]
  · intro t cid h
    simp only [postgresGetClickByCid]
    rw [find?_cid_eq_none t.rows cid h]
  · intro m cid h
    exact mapGet_eq_none m.clicks cid h

/-- Witness for C3_get_missing_returns_absence at freshly initialized empty
stores and the identifier "ABC123DEF0". -/
theorem C3_get_missing_witness :
    sqliteGetClickByCid (some { rows := [], nextId := 1 }) ("ABC123DEF0".data) =
      Except.ok none ∧
    postgresGetClickByCid (some { rows := [], nextId := 1 }) ("ABC123DEF0".data) =
      Except.ok none ∧
    inMemoryGetClickByCid { clicks := [], idCounter := 1 } ("ABC123DEF0".data) = none := by
  refine ⟨?_, ?_, ?_⟩
  · exact C3_get_missing_returns_absence.1 _ _ (by simp)
  · exact C3_get_missing_returns_absence.2.1 _ _ (by simp)
  · exact C3_get_missing_returns_absence.2.2 _ _ (by simp)

/-- Counterexample to claim C4 as stated: the SQLite backend does not
round-trip every ClickRecord exactly.  A record whose utm_source is the
empty string is stored through `utm_source || null` as null, so retrieval
returns a record with utm_source = null, not the inserted empty string. -/
theorem C4_roundtrip_counterexample :
    (sqliteInsertClick (some { rows := [], nextId := 1 })
        { cid := "XYZ987AB12".data, slug := "s".data, created_at := "t0".data,
          twclid := none, utm_source := some [], utm_medium := none,
          utm_campaign := none, utm_content := none, user_agent := none,
          referer := none, ip_hash := none }).bind
      (fun d => sqliteGetClickByCid d ("XYZ987AB12".data)) =
      Except.ok (some
        { id := 1,
          fields := { cid := "XYZ987AB12".data, slug := "s".data,
                      created_at := "t0".data, twclid := none, utm_source := none,
                      utm_medium := none, utm_campaign := none, utm_content := none,
                      user_agent := none, referer := none, ip_hash := none } }) ∧
    (some ([] : JsStr)) ≠ (none : Option JsStr) := by
  exact ⟨rfl, by decide⟩

/-- Claim C4 (corrected): inserting a record with a cid not yet stored and
then retrieving by that cid returns a record with identical field values on
the in-memory backend unconditionally, and on the SQLite and Postgres
backends provided every optional field of the record is either absent or a
nonempty string (equivalently, the record is a fixed point of the
empty-string-to-null normalization those backends apply when binding the
INSERT parameters); a record carrying an empty-string optional field comes
back with that field nulled on the SQL backends — see the counterexample. -/
theorem C4_roundtrip_amended :
    (∀ (m : InMemoryDb) (r : ClickRecord),
      inMemoryGetClickByCid (inMemoryInsertClick m r) r.cid =
        some { id := m.idCounter, fields := r }) ∧
    (∀ (t : SqlTable) (r : ClickRecord), (∀ row ∈ t.rows, row.fields.cid ≠ r.cid) →
      dbNormalizeRecord r = r →
      ∃ d, sqliteInsertClick (some t) r = Except.ok d ∧
        sqliteGetClickByCid d r.cid = Except.ok (some { id := t.nextId, fields := r })) ∧
    (∀ (t : SqlTable) (r : ClickRecord), (∀ row ∈ t.rows, row.fields.cid ≠ r.cid) →
      dbNormalizeRecord r = r →
      ∃ d, postgresInsertClick (some t) r = Except.ok d ∧
        postgresGetClickByCid d r.cid = Except.ok (some { id := t.nextId, fields := r })) := by
  have hfind : ∀ (t : SqlTable) (r : ClickRecord),
      (∀ row ∈ t.rows, row.fields.cid ≠ r.cid) → dbNormalizeRecord r = r →
      (t.rows ++ [(⟨t.nextId, dbNormalizeRecord r⟩ : StoredClick)]).find?
          (fun row => row.fields.cid == r.cid) =
        some (⟨t.nextId, r⟩ : StoredClick) := by
    intro t r hfresh hnorm
    rw [List.find?_append, find?_cid_eq_none t.rows r.cid hfresh]
    simp only [Option.none_or]
    rw [hnorm]
    simp [List.find?_cons]
  refine ⟨?_, ?_, ?_⟩
  · intro m r
    unfold inMemoryGetClickByCid inMemoryInsertClick
    exact mapGet_mapSet_self m.clicks r.cid _
  · intro t r hfresh hnorm
    refine ⟨some { rows := t.rows ++ [{ id := t.nextId, fields := dbNormalizeRecord r }]
                   nextId := t.nextId + 1 }, ?_, ?_⟩
    · simp only [sqliteInsertClick]
      rw [if_neg (by rw [find?_cid_eq_none t.rows r.cid hfresh]; simp)]
    · simp only [sqliteGetClickByCid]
      rw [hfind t r hfresh hnorm]
  · intro t r hfresh hnorm
    refine ⟨some { rows := t.rows ++ [{ id := t.nextId, fields := dbNormalizeRecord r }]
                   nextId := t.nextId + 1 }, ?_, ?_⟩
    · simp only [postgresInsertClick]
      rw [if_neg (by rw [find?_cid_eq_none t.rows r.cid hfresh]; simp)]
    · simp only [postgresGetClickByCid]
      rw [hfind t r hfresh hnorm]

/-- Witness for C4_roundtrip_amended: inserting a record with all optional
fields absent into a freshly initialized empty SQLite store and retrieving
it by its cid. -/
theorem C4_roundtrip_witness :
    ∃ d, sqliteInsertClick (some { rows := [], nextId := 1 })
        { cid := "ABC123DEF0".data, slug := "pune".data, created_at := "t0".data,
          twclid := none, utm_source := none, utm_medium := none,
          utm_campaign := none, utm_content := none, user_agent := none,
          referer := none, ip_hash := none } = Except.ok d ∧
      sqliteGetClickByCid d ("ABC123DEF0".data) =
        Except.ok (some
          { id := 1,
            fields := { cid := "ABC123DEF0".data, slug := "pune".data,
                        created_at := "t0".data, twclid := none, utm_source := none,
                        utm_medium := none, utm_campaign := none, utm_content := none,
                        user_agent := none, referer := none, ip_hash := none } }) := by
  exact C4_roundtrip_amended.2.1 { rows := [], nextId := 1 } _ (by simp) (by decide)

/-- Claim C10 (confirmed): createClickRecord sets cid and slug to the
supplied values, sets created_at to the creation timestamp, and sends every
optional parameter through the `|| null` normalization, which maps exactly
the absent value and the empty string to null — so an empty-string
parameter is stored as an absent value, indistinguishable from one never
supplied. -/
theorem C10_createClickRecord_spec :
    (∀ (cid slug now : JsStr) (p : ClickParams),
      createClickRecord cid slug p now =
        { cid := cid, slug := slug, created_at := now,
          twclid := jsOrNull p.twclid, utm_source := jsOrNull p.utm_source,
          utm_medium := jsOrNull p.utm_medium, utm_campaign := jsOrNull p.utm_campaign,
          utm_content := jsOrNull p.utm_content, user_agent := jsOrNull p.user_agent,
          referer := jsOrNull p.referer, ip_hash := jsOrNull p.ip_hash }) ∧
    (∀ v : Option JsStr, jsOrNull v = none ↔ v = none ∨ v = some []) := by
  constructor
  · intro cid slug now p
    rfl
  · intro v
    rcases v with _ | ⟨_ | ⟨a, t⟩⟩
    · simp [jsOrNull]
    · simp [jsOrNull]
    · simp [jsOrNull]

/-- Witness for C10_createClickRecord_spec: an empty-string utm_source is
normalized to the absent value, identically to a never-supplied one. -/
theorem C10_createClickRecord_witness :
    createClickRecord ("ABC123DEF0".data) ("pune".data)
      { twclid := none, utm_source := some [], utm_medium := none,
        utm_campaign := none, utm_content := none, user_agent := none,
        referer := none, ip_hash := some ("h".data) } ("t0".data) =
      { cid := "ABC123DEF0".data, slug := "pune".data, created_at := "t0".data,
        twclid := none, utm_source := none, utm_medium := none,
        utm_campaign := none, utm_content := none, user_agent := none,
        referer := none, ip_hash := some ("h".data) } ∧
    jsOrNull (some []) = none := by
  constructor
  · exact (C10_createClickRecord_spec.1 ("ABC123DEF0".data) ("pune".data) ("t0".data)
      { twclid := none, utm_source := some [], utm_medium := none,
        utm_campaign := none, utm_content := none, user_agent := none,
        referer := none, ip_hash := some ("h".data) }).trans (by decide)
  · exact (C10_createClickRecord_spec.2 (some [])).mpr (Or.inr rfl)

end XWaBridge
